import Mathlib

/-!
Verification development for the sahim-chat realtime messaging backend.

The definitions below are a shallow embedding of the Python sources under
`src/chat/` (`models.py`, `consumers.py`, `serializers.py`, `image_utils.py`,
`tasks.py`).  Database rows become records, Django querysets become list
operations, the channel layer and websocket sends become an explicit effect
list, and the media directory becomes an association list from paths to file
contents.  External libraries are modelled by their results: base64 decoding
is represented by its outcome (`Option StoredFile`), and the Pillow/imagekit
encoders by the attributes (`validImage`, `q85size`, `q70size`) that the
pipeline reads off a file's content.
-/

namespace SahimChat

/-! ## String helpers: `os.path.basename` and `os.path.splitext` -/

/-- Model of `os.path.basename`: the part of the path after the last slash. -/
def basenameAux : List Char → List Char → List Char
  | [], acc => acc.reverse
  | c :: rest, acc => if c = '/' then basenameAux rest [] else basenameAux rest (c :: acc)

def basename (p : String) : String := String.mk (basenameAux p.data [])

def lastIdxAux (c : Char) : List Char → Nat → Option Nat → Option Nat
  | [], _, acc => acc
  | x :: rest, i, acc => lastIdxAux c rest (i + 1) (if x = c then some i else acc)

/-- Index of the last occurrence of `c` in `cs`, if any. -/
def lastIdx (c : Char) (cs : List Char) : Option Nat := lastIdxAux c cs 0 none

/-- Model of `os.path.splitext`: split off the extension at the last dot of the
basename, provided some non-dot character of the basename precedes that dot
(so `".bashrc"` has no extension, matching CPython). -/
def splitext (p : String) : String × String :=
  let cs := p.data
  let nameStart : Nat := match lastIdx '/' cs with | some i => i + 1 | none => 0
  match lastIdx '.' cs with
  | none => (p, "")
  | some sepIdx =>
    if (List.range sepIdx).any (fun k => nameStart ≤ k && cs.getD k '.' ≠ '.') then
      (String.mk (cs.take sepIdx), String.mk (cs.drop sepIdx))
    else (p, "")

/-- ASCII lowercase of one character (model of `str.lower` on extensions). -/
def lowerChar (c : Char) : Char :=
  if 65 ≤ c.toNat ∧ c.toNat ≤ 90 then Char.ofNat (c.toNat + 32) else c

def lowerStr (s : String) : String := String.mk (s.data.map lowerChar)

/-! ## File storage model

A stored file's content is abstracted by the only attributes the code reads
from it: its byte size, whether Pillow can verify it as an image, and the
byte sizes the two imagekit specs (`CompressedImage`, quality 85, and
`HighCompressedImage`, quality 70) produce when re-encoding it. -/

structure StoredFile where
  size : Nat
  validImage : Bool
  q85size : Nat
  q70size : Nat
deriving DecidableEq, Repr

/-- The media directory: association list from relative path to content. -/
abbrev FS := List (String × StoredFile)

def fsGet (fs : FS) (p : String) : Option StoredFile :=
  (fs.find? (fun e => e.1 == p)).map (fun e => e.2)

def fsExists (fs : FS) (p : String) : Bool := (fsGet fs p).isSome

def fsWrite (fs : FS) (p : String) (f : StoredFile) : FS :=
  (fs.filter (fun e => e.1 != p)) ++ [(p, f)]

def fsRemove (fs : FS) (p : String) : FS := fs.filter (fun e => e.1 != p)

/-- Model of `os.path.getsize` (0 when missing; only called on existing files). -/
def getsize (fs : FS) (p : String) : Nat :=
  match fsGet fs p with
  | some f => f.size
  | none => 0

/-- Model of `image_utils.cleanup`: remove the file if it exists, swallow errors. -/
def cleanup (fs : FS) (p : String) : FS := fsRemove fs p

/-! ## Data model (`chat/models.py`) -/

/-- One row of the `Chat` table (`models.Chat`): a pair of user ids. -/
structure ChatRow where
  id : Nat
  user1 : Nat
  user2 : Nat
deriving DecidableEq, Repr

/-- One row of the `Message` table (`models.Message`). -/
structure Msg where
  id : Nat
  chatId : Nat
  senderId : Nat
  content : String
  messageType : String
  filePath : Option String
  readBy : Option Nat
  readAt : Option Nat
  celeryTaskId : Option String
  createdAt : Nat
deriving DecidableEq, Repr

/-- The database: user table (ids only), chat table, message table. -/
structure DB where
  users : List Nat
  chats : List ChatRow
  messages : List Msg
deriving DecidableEq, Repr

def nextMessageId (db : DB) : Nat := (db.messages.map Msg.id).foldr max 0 + 1

def nextChatId (db : DB) : Nat := (db.chats.map ChatRow.id).foldr max 0 + 1

/-- Model of `Chat.objects.get(id=chat_id)` returning `None` on `DoesNotExist`. -/
def getChat (db : DB) (cid : Nat) : Option ChatRow := db.chats.find? (fun c => c.id == cid)

def userExists (db : DB) (uid : Nat) : Bool := db.users.contains uid

/-! ## Outbound payloads and effects -/

/-- The dictionary built by `format_message_data` (both the consumer variant and
the `image_utils` variant).  The absolute `file_url` string is derived from the
request scope / settings and carries no additional information beyond
`filePath`, so it is not modelled separately. -/
structure MessageData where
  id : Nat
  senderId : Nat
  content : String
  messageType : String
  filePath : Option String
  fileName : Option String
  celeryTaskId : Option String
  createdAt : Nat
  readBy : Option Nat
  readAt : Option Nat
  isSent : Bool
deriving DecidableEq, Repr

/-- Events posted to a channel-layer group (`channel_layer.group_send`); the
`type` field of the event names the consumer handler method it dispatches to. -/
inductive GroupEvent where
  | chatMessage (m : MessageData)
  | typingIndicator (userId : Nat) (isTyping : Bool)
  | readReceipt (messageId : Nat) (readBy : Nat)
  | uploadFailed (reason : String)
deriving DecidableEq, Repr

/-- Frames written to one websocket (`self.send(text_data=...)`). -/
inductive OutMsg where
  | connectionEstablished (chatId : Nat)
  | userChatsEstablished (userId : Nat)
  | chatMessage (m : MessageData)
  | typingIndicator (userId : Nat) (isTyping : Bool)
  | readReceipt (messageId : Nat) (readBy : Nat)
  | errorMsg (message : String)
deriving DecidableEq, Repr

/-- Side effects a handler performs, in order. -/
inductive Eff where
  | sendSelf (payload : OutMsg)
  | groupSend (group : String) (event : GroupEvent)
  | groupAdd (group : String)
  | groupDiscard (group : String)
  | accept
  | close (code : Nat)
  | enqueueTask (chatId : Nat) (senderId : Nat) (filePath : String) (content : String)
deriving DecidableEq, Repr

def chatGroupName (chatId : Nat) : String := "chat_" ++ toString chatId

def userGroupName (uid : Nat) : String := "user_" ++ toString uid ++ "_chats"

/-! ## `ChatConsumer` (`chat/consumers.py`) -/

/-- Model of `ChatConsumer.format_message_data` (the fields the websocket
payload carries; `file_url` is a derived rendering of `filePath`, see
`MessageData`).  The consumer variant does not include `celery_task_id`. -/
def format_message_data (currentUserId : Nat) (m : Msg) : MessageData :=
  { id := m.id
    senderId := m.senderId
    content := m.content
    messageType := m.messageType
    filePath := m.filePath
    fileName := m.filePath.map basename
    celeryTaskId := none
    createdAt := m.createdAt
    readBy := m.readBy
    readAt := m.readAt
    isSent := m.senderId == currentUserId }

/-- The relation `order_by('created_at')` sorts by. -/
def createdLe (a b : Msg) : Prop := a.createdAt ≤ b.createdAt

instance : DecidableRel createdLe := fun a b => Nat.decLe a.createdAt b.createdAt

instance : IsTotal Msg createdLe := ⟨fun a b => Nat.le_total a.createdAt b.createdAt⟩

instance : IsTrans Msg createdLe := ⟨fun _ _ _ h1 h2 => Nat.le_trans h1 h2⟩

/-- Default `limit` of `ChatConsumer.get_chat_history`. -/
def HISTORY_LIMIT : Nat := 100

/-- Model of `ChatConsumer.get_chat_history`:
`Message.objects.filter(chat_id=chat_id).order_by('created_at')[:limit]` —
ascending creation order, then the first `limit` entries. -/
def get_chat_history (db : DB) (chatId : Nat) (limit : Nat) : List Msg :=
  ((db.messages.filter (fun m => m.chatId == chatId)).insertionSort createdLe).take limit

/-- Model of `ChatConsumer.send_chat_history`: one websocket frame per history
message, to this connection only. -/
def send_chat_history (db : DB) (chatId : Nat) (currentUserId : Nat) : List Eff :=
  (get_chat_history db chatId HISTORY_LIMIT).map
    (fun m => Eff.sendSelf (OutMsg.chatMessage (format_message_data currentUserId m)))

inductive ConnectOutcome where
  | rejected (code : Nat)
  | joined
deriving DecidableEq, Repr

structure ConnectResult where
  outcome : ConnectOutcome
  effs : List Eff
  db : DB
deriving DecidableEq, Repr

/-- Model of `ChatConsumer.connect`.  `user = none` models an anonymous scope
user.  Note the returned database: `connect` performs no writes. -/
def ChatConsumer_connect (db : DB) (chatId : Nat) (user : Option Nat) : ConnectResult :=
  match user with
  | none => { outcome := ConnectOutcome.rejected 4001, effs := [Eff.close 4001], db := db }
  | some uid =>
    match getChat db chatId with
    | none => { outcome := ConnectOutcome.rejected 4004, effs := [Eff.close 4004], db := db }
    | some chat =>
      if chat.user1 ≠ uid ∧ chat.user2 ≠ uid then
        { outcome := ConnectOutcome.rejected 4003, effs := [Eff.close 4003], db := db }
      else
        { outcome := ConnectOutcome.joined
          effs := [Eff.groupAdd (chatGroupName chatId), Eff.accept] ++
                  send_chat_history db chatId uid ++
                  [Eff.sendSelf (OutMsg.connectionEstablished chatId)]
          db := db }

/-- Model of `ChatConsumer.disconnect`: `self.chat_group_name` is assigned on
the first line of `connect`, before any rejection path, so the discard always
has its group name available. -/
def ChatConsumer_disconnect (chatId : Nat) : Except String (List Eff) :=
  Except.ok [Eff.groupDiscard (chatGroupName chatId)]

/-- Model of `ChatConsumer.save_message`: `None` when the chat is missing or
the sender is not one of its two participants; otherwise a fresh `Message`
row with `read_by`/`read_at` null and no task id. -/
def save_message (db : DB) (chatId : Nat) (senderId : Nat) (content : String)
    (messageType : String) (fileField : Option String) (now : Nat) : Option (DB × Msg) :=
  match getChat db chatId with
  | none => none
  | some chat =>
    if chat.user1 ≠ senderId ∧ chat.user2 ≠ senderId then none
    else
      let m : Msg :=
        { id := nextMessageId db, chatId := chatId, senderId := senderId, content := content
          messageType := messageType, filePath := fileField, readBy := none, readAt := none
          celeryTaskId := none, createdAt := now }
      some ({ db with messages := db.messages ++ [m] }, m)

/-- Model of `ChatConsumer._save_base64_file_sync`.  `decoded` is the outcome
of `base64.b64decode(file_data)` (the external decoder modelled by its
result); `timestamp` is `datetime.now().strftime('%Y%m%d_%H%M%S_%f')`.  The
staged name is `\x7bname\x7d_\x7btimestamp\x7d\x7bext\x7d` under `messages/`. -/
def stagedName (fileName : String) (timestamp : String) : String :=
  "messages/" ++ ((splitext fileName).1 ++ "_" ++ timestamp ++ (splitext fileName).2)

def save_base64_file (fs : FS) (decoded : Option StoredFile) (fileName : String)
    (timestamp : String) : Option (FS × String) :=
  match decoded with
  | none => none
  | some contentFile =>
    let filePath := stagedName fileName timestamp
    some (fsWrite fs filePath contentFile, filePath)

/-- The fields `handle_chat_message` reads from a `chat_message` frame.
`fileData = some d` models a present `file_data` entry whose base64 decoding
yields `d`; `none` models an absent entry. -/
structure ChatFrame where
  content : String
  messageType : String
  filePathField : Option String
  fileData : Option (Option StoredFile)
  fileName : Option String
deriving DecidableEq, Repr

/-- The part of `ChatConsumer.handle_chat_message` after the optional staging
step: content-or-file check, `_read_file_and_create_contentfile`,
`save_message`, then either a group broadcast or an error frame. -/
def handle_chat_message_rest (db : DB) (fs : FS) (chatId : Nat) (uid : Nat)
    (content : String) (messageType : String) (filePath : Option String) (now : Nat) :
    DB × FS × List Eff :=
  if content = "" ∧ filePath.getD "" = "" then
    (db, fs, [Eff.sendSelf (OutMsg.errorMsg "Message content or file is required")])
  else
    let fileField : Option String :=
      match filePath with
      | none => none
      | some p => if fsExists fs p then some p else none
    match save_message db chatId uid content messageType fileField now with
    | some r =>
      (r.1, fs,
       [Eff.groupSend (chatGroupName chatId)
          (GroupEvent.chatMessage (format_message_data uid r.2))])
    | none => (db, fs, [Eff.sendSelf (OutMsg.errorMsg "Failed to save message")])

/-- Model of `ChatConsumer.handle_chat_message`. -/
def handle_chat_message (db : DB) (fs : FS) (chatId : Nat) (uid : Nat) (frame : ChatFrame)
    (timestamp : String) (now : Nat) : DB × FS × List Eff :=
  if frame.fileData.isSome ∧ frame.fileName.getD "" ≠ "" then
    match save_base64_file fs (frame.fileData.getD none) (frame.fileName.getD "") timestamp with
    | none => (db, fs, [Eff.sendSelf (OutMsg.errorMsg "Failed to save file")])
    | some r =>
      handle_chat_message_rest db r.1 chatId uid frame.content frame.messageType (some r.2) now
  else
    handle_chat_message_rest db fs chatId uid frame.content frame.messageType
      frame.filePathField now

/-- Model of `ChatConsumer.handle_typing_indicator`. -/
def handle_typing_indicator (chatId : Nat) (uid : Nat) (isTyping : Bool) : List Eff :=
  [Eff.groupSend (chatGroupName chatId) (GroupEvent.typingIndicator uid isTyping)]

/-- Model of `ChatConsumer.mark_message_as_read`: one single message looked up
by id; marked only when the caller is a chat participant, is not the sender,
and the message is still unread. -/
def mark_message_as_read (db : DB) (messageId : Nat) (uid : Nat) (now : Nat) : DB × Bool :=
  match db.messages.find? (fun m => m.id == messageId) with
  | none => (db, false)
  | some m =>
    match getChat db m.chatId with
    | none => (db, false)
    | some chat =>
      if chat.user1 ≠ uid ∧ chat.user2 ≠ uid then (db, false)
      else if m.senderId ≠ uid ∧ m.readBy = none then
        ({ db with
            messages := db.messages.map (fun x =>
              if x.id == messageId then { x with readBy := some uid, readAt := some now }
              else x) },
         true)
      else (db, false)

/-- Model of `ChatConsumer.handle_read_receipt`: guarded by Python truthiness
of `message_id` (absent or `0` does nothing); the `read_receipt` broadcast is
issued whether or not the mark succeeded. -/
def handle_read_receipt (db : DB) (chatId : Nat) (uid : Nat) (messageId : Option Nat)
    (now : Nat) : DB × List Eff :=
  match messageId with
  | some mid =>
    if mid ≠ 0 then
      ((mark_message_as_read db mid uid now).1,
       [Eff.groupSend (chatGroupName chatId) (GroupEvent.readReceipt mid uid)])
    else (db, [])
  | none => (db, [])

/-- A decoded inbound frame (`json.loads` succeeded); `ftype` is `data['type']`. -/
structure InFrame where
  ftype : String
  chat : ChatFrame
  isTyping : Bool
  messageId : Option Nat
deriving DecidableEq, Repr

/-- Model of `ChatConsumer.receive` for frames with valid JSON: dispatch on the
declared type, with the final `else` branch sending an error frame. -/
def receive (db : DB) (fs : FS) (chatId : Nat) (uid : Nat) (frame : InFrame)
    (timestamp : String) (now : Nat) : DB × FS × List Eff :=
  if frame.ftype = "chat_message" then
    handle_chat_message db fs chatId uid frame.chat timestamp now
  else if frame.ftype = "typing" then
    (db, fs, handle_typing_indicator chatId uid frame.isTyping)
  else if frame.ftype = "read_receipt" then
    let r := handle_read_receipt db chatId uid frame.messageId now
    (r.1, fs, r.2)
  else
    (db, fs, [Eff.sendSelf (OutMsg.errorMsg "Invalid message type")])

/-! ### Group-event delivery (the `chat_message` / `typing_indicator` /
`read_receipt` handler methods each member connection runs) -/

/-- Model of `ChatConsumer.chat_message`: the frame is forwarded only when the
event's sender id differs from this connection's user id. -/
def chat_message_deliver (currentUserId : Nat) (m : MessageData) : Option OutMsg :=
  if m.senderId ≠ currentUserId then some (OutMsg.chatMessage m) else none

/-- Model of `ChatConsumer.typing_indicator`: self-echo filtered out. -/
def typing_indicator_deliver (currentUserId : Nat) (senderId : Nat) (isTyping : Bool) :
    Option OutMsg :=
  if senderId ≠ currentUserId then some (OutMsg.typingIndicator senderId isTyping) else none

/-- Model of `ChatConsumer.read_receipt`: forwarded to every member. -/
def read_receipt_deliver (messageId : Nat) (readBy : Nat) : Option OutMsg :=
  some (OutMsg.readReceipt messageId readBy)

/-- What one member connection with user id `currentUserId` writes to its
socket when a group event reaches it.  `ChatConsumer` defines no
`upload_failed` handler method, so that event type is not deliverable. -/
def deliverGroupEvent (currentUserId : Nat) (e : GroupEvent) : Option OutMsg :=
  match e with
  | GroupEvent.chatMessage m => chat_message_deliver currentUserId m
  | GroupEvent.typingIndicator u b => typing_indicator_deliver currentUserId u b
  | GroupEvent.readReceipt mid rb => read_receipt_deliver mid rb
  | GroupEvent.uploadFailed _ => none

/-- Frames a member connection receives from the group sends in an effect list. -/
def deliverAll (currentUserId : Nat) (effs : List Eff) : List OutMsg :=
  effs.filterMap (fun e =>
    match e with
    | Eff.groupSend _ ev => deliverGroupEvent currentUserId ev
    | _ => none)

/-! ## `UserChatsConsumer` (`chat/consumers.py`) -/

/-- The only per-connection attribute `UserChatsConsumer.disconnect` reads:
`self.user_group_name`, which `connect` assigns only after the anonymity
check has passed. -/
structure UserChatsState where
  userGroupNameAttr : Option String
deriving DecidableEq, Repr

/-- Model of `UserChatsConsumer.connect`.  On the anonymous path the method
closes before `self.user_group_name` is assigned. -/
def UserChatsConsumer_connect (user : Option Nat) : UserChatsState × List Eff :=
  match user with
  | none => ({ userGroupNameAttr := none }, [Eff.close 4001])
  | some uid =>
    ({ userGroupNameAttr := some (userGroupName uid) },
     [Eff.groupAdd (userGroupName uid), Eff.accept,
      Eff.sendSelf (OutMsg.userChatsEstablished uid)])

/-- Model of `UserChatsConsumer.disconnect`: reading an attribute that was
never assigned raises, modelled as `Except.error`. -/
def UserChatsConsumer_disconnect (st : UserChatsState) : Except String (List Eff) :=
  match st.userGroupNameAttr with
  | none => Except.error "AttributeError: user_group_name"
  | some g => Except.ok [Eff.groupDiscard g]

/-! ## File ingestion pipeline (`chat/image_utils.py`, `chat/tasks.py`) -/

def MAX_FILE_SIZE : Nat := 10 * 1024 * 1024

def MAX_IMAGE_SIZE : Nat := 2 * 1024 * 1024

def ALLOWED_IMAGE_EXTS : List String := [".jpg", ".jpeg", ".png", ".webp", ".heic", ".heif"]

def ALLOWED_DOC_EXTS : List String :=
  [".pdf", ".doc", ".docx", ".xls", ".xlsx", ".ppt", ".pptx", ".txt"]

/-- Model of `image_utils.validate_file_type`: classify by lowercased
extension; image extensions additionally require Pillow verification. -/
def validate_file_type (fs : FS) (filePath : String) : Option String × String :=
  if ALLOWED_IMAGE_EXTS.contains (lowerStr (splitext filePath).2) then
    match fsGet fs filePath with
    | some f =>
      if f.validImage then (some "image", lowerStr (splitext filePath).2)
      else (none, lowerStr (splitext filePath).2)
    | none => (none, lowerStr (splitext filePath).2)
  else if ALLOWED_DOC_EXTS.contains (lowerStr (splitext filePath).2) then
    (some "document", lowerStr (splitext filePath).2)
  else (none, lowerStr (splitext filePath).2)

/-- Model of `image_utils.compress_image`, returning the byte size of the
encoding it picks: the quality-85 result when it meets `target_size`,
otherwise the quality-70 result — which the code accepts whenever it is at
most `MAX_FILE_SIZE` (the 10 MiB hard cap, not the 2 MiB target). -/
def compress_image (source : StoredFile) (targetSize : Nat) : Option Nat :=
  if source.q85size ≤ targetSize then some source.q85size
  else if source.q70size ≤ MAX_FILE_SIZE then some source.q70size
  else none

/-- Model of `image_utils.format_message_data` (no `is_sent` field there; the
derived `file_url` string is not modelled separately, see `MessageData`). -/
def pipeline_format_message_data (m : Msg) : MessageData :=
  { id := m.id
    senderId := m.senderId
    content := m.content
    messageType := m.messageType
    filePath := m.filePath
    fileName := m.filePath.map basename
    celeryTaskId := m.celeryTaskId
    createdAt := m.createdAt
    readBy := m.readBy
    readAt := m.readAt
    isSent := false }

def uploadFailedEff (chatId : Nat) (reason : String) : Eff :=
  Eff.groupSend (chatGroupName chatId) (GroupEvent.uploadFailed reason)

structure PipelineResult where
  success : Bool
  reason : Option String
  messageId : Option Nat
deriving DecidableEq, Repr

def pipelineFail (reason : String) : PipelineResult :=
  { success := false, reason := some reason, messageId := none }

/-- The normalized target path `messages/\x7bbase_name\x7d.webp`. -/
def webp_target_path (filePath : String) : String :=
  "messages/" ++ (splitext (basename filePath)).1 ++ ".webp"

/-- The `Message` row the commit step inserts: always `message_type='file'`,
with the task id recorded in `celery_task_id`. -/
def pipelineMsg (db : DB) (chatId : Nat) (senderId : Nat) (processedPath : String)
    (content : String) (taskId : String) (now : Nat) : Msg :=
  { id := nextMessageId db, chatId := chatId, senderId := senderId, content := content
    messageType := "file", filePath := some processedPath, readBy := none, readAt := none
    celeryTaskId := some taskId, createdAt := now }

/-- The commit step of `image_utils.validate_and_process_file`: resolve chat
and sender, insert the `Message` row, broadcast `chat_message`.  There is no
lookup of an existing row for `task_id` before the insert. -/
def pipeline_commit (db : DB) (fs : FS) (chatId : Nat) (senderId : Nat)
    (processedPath : String) (content : String) (taskId : String) (now : Nat) :
    DB × FS × List Eff × PipelineResult :=
  match getChat db chatId with
  | none =>
    (db, cleanup fs processedPath, [uploadFailedEff chatId "chat_not_found"],
     pipelineFail "chat_not_found")
  | some _ =>
    if ¬ userExists db senderId then
      (db, cleanup fs processedPath, [uploadFailedEff chatId "user_not_found"],
       pipelineFail "user_not_found")
    else
      let m : Msg := pipelineMsg db chatId senderId processedPath content taskId now
      ({ db with messages := db.messages ++ [m] }, fs,
       [Eff.groupSend (chatGroupName chatId)
          (GroupEvent.chatMessage (pipeline_format_message_data m))],
       { success := true, reason := none, messageId := some m.id })

/-- Model of `image_utils.validate_and_process_file`: existence check, type
classification, document size gate, image normalization, then commit. -/
def validate_and_process_file (db : DB) (fs : FS) (chatId : Nat) (senderId : Nat)
    (filePath : String) (content : String) (taskId : String) (now : Nat) :
    DB × FS × List Eff × PipelineResult :=
  if ¬ fsExists fs filePath then
    (db, fs, [uploadFailedEff chatId "file_not_found"], pipelineFail "file_not_found")
  else
    if (validate_file_type fs filePath).1 = none then
      (db, cleanup fs filePath, [uploadFailedEff chatId "unsupported_type"],
       pipelineFail "unsupported_type")
    else
      if getsize fs filePath > MAX_FILE_SIZE ∧
          (validate_file_type fs filePath).1 = some "document" then
        (db, cleanup fs filePath, [uploadFailedEff chatId "file_too_large"],
         pipelineFail "file_too_large")
      else
        if (validate_file_type fs filePath).1 = some "image" ∧
            (getsize fs filePath > MAX_IMAGE_SIZE ∨
              (validate_file_type fs filePath).2 ≠ ".webp") then
          match compress_image
              ((fsGet fs filePath).getD
                { size := 0, validImage := false, q85size := 0, q70size := 0 })
              MAX_IMAGE_SIZE with
          | none =>
            (db, cleanup fs filePath, [uploadFailedEff chatId "file_too_large"],
             pipelineFail "file_too_large")
          | some csize =>
            pipeline_commit db
              (if filePath ≠ webp_target_path filePath then
                cleanup
                  (fsWrite fs (webp_target_path filePath)
                    { size := csize, validImage := true, q85size := csize, q70size := csize })
                  filePath
              else
                fsWrite fs (webp_target_path filePath)
                  { size := csize, validImage := true, q85size := csize, q70size := csize })
              chatId senderId (webp_target_path filePath) content taskId now
        else
          pipeline_commit db fs chatId senderId filePath content taskId now

/-! ## Chat creation (`chat/models.py` `Chat.save` and
`chat/serializers.py` `ChatSerializer.create`) -/

/-- The database insert for a `Chat` row, enforcing the table constraints
`check_user1_lt_user2` and `unique_user_pair`. -/
def chat_insert (db : DB) (a b : Nat) : Except String (DB × ChatRow) :=
  if ¬ a < b then Except.error "check_user1_lt_user2"
  else if db.chats.any (fun c => c.user1 == a && c.user2 == b) then
    Except.error "unique_user_pair"
  else
    Except.ok
      ({ db with chats := db.chats ++ [{ id := nextChatId db, user1 := a, user2 := b }] },
       { id := nextChatId db, user1 := a, user2 := b })

/-- Model of `Chat.save` followed by the database insert: swap the pair into
ascending id order when `user1.id > user2.id`, then insert under the table
constraints. -/
def Chat_save (db : DB) (u1 : Nat) (u2 : Nat) : Except String (DB × ChatRow) :=
  if u1 > u2 then chat_insert db u2 u1 else chat_insert db u1 u2

/-- Model of `ChatSerializer.create`: the requester is `user1`; look up the
pair in both orders before creating. -/
def ChatSerializer_create (db : DB) (user1Id : Nat) (user2Id : Nat) :
    Except String (DB × ChatRow) :=
  if ¬ userExists db user2Id then Except.error "User.DoesNotExist"
  else
    match db.chats.find? (fun c => c.user1 == user1Id && c.user2 == user2Id) with
    | some c => Except.ok (db, c)
    | none =>
      match db.chats.find? (fun c => c.user1 == user2Id && c.user2 == user1Id) with
      | some c => Except.ok (db, c)
      | none => Chat_save db user1Id user2Id

/-- The persisted-chat invariant the claims talk about: every row canonical
(`user1 < user2`) and no two distinct rows with the same ordered pair. -/
def ChatDBValid (db : DB) : Prop :=
  (∀ c ∈ db.chats, c.user1 < c.user2) ∧
  db.chats.Pairwise (fun c d => c.user1 ≠ d.user1 ∨ c.user2 ≠ d.user2)

instance (db : DB) : Decidable (ChatDBValid db) := by
  unfold ChatDBValid
  infer_instance

/-! ## Counting helpers used in theorem statements -/

/-- Messages still unread (`read_by` null) and not sent by `uid`. -/
def countUnreadNotBy (msgs : List Msg) (uid : Nat) : Nat :=
  (msgs.filter (fun m => m.readBy == none && m.senderId != uid)).length

/-- Messages whose `celery_task_id` is `taskId`. -/
def countTaskMessages (msgs : List Msg) (taskId : String) : Nat :=
  (msgs.filter (fun m => m.celeryTaskId == some taskId)).length

def isUploadFailedEff : Eff → Bool
  | Eff.groupSend _ (GroupEvent.uploadFailed _) => true
  | _ => false

def isEnqueueEff : Eff → Bool
  | Eff.enqueueTask _ _ _ _ => true
  | _ => false

def countUploadFailed (effs : List Eff) : Nat := (effs.filter isUploadFailedEff).length

def countEnqueue (effs : List Eff) : Nat := (effs.filter isEnqueueEff).length

/-- The `message_type` of the newest row, if any. -/
def msgTypeOfLast (msgs : List Msg) : Option String := msgs.getLast?.map Msg.messageType

/-- The `file_path` of the newest row, if any. -/
def msgFileOfLast (msgs : List Msg) : Option (Option String) := msgs.getLast?.map Msg.filePath

/-- The spec-side history contract, written from the spec's words for the
refinement comparison: the most-recent-`limit` messages of the chat, in
chronological ascending order. -/
def history_most_recent (db : DB) (chatId : Nat) (limit : Nat) : List Msg :=
  let s := (db.messages.filter (fun m => m.chatId == chatId)).insertionSort createdLe
  s.drop (s.length - limit)

/-! ## Example fixtures used by counterexamples and witnesses -/

def mkMsg (id : Nat) (chatId : Nat) (senderId : Nat) (content : String) (createdAt : Nat) : Msg :=
  { id := id, chatId := chatId, senderId := senderId, content := content
    messageType := "text", filePath := none, readBy := none, readAt := none
    celeryTaskId := none, createdAt := createdAt }

/-- Chat 7 between users 1 and 2, with three unread text messages from user 1. -/
def exDB : DB :=
  { users := [1, 2]
    chats := [{ id := 7, user1 := 1, user2 := 2 }]
    messages := [mkMsg 10 7 1 "m1" 1, mkMsg 11 7 1 "m2" 2, mkMsg 12 7 1 "m3" 3] }

/-- Chat 7 between users 1 and 2, empty message log. -/
def exDBempty : DB :=
  { users := [1, 2]
    chats := [{ id := 7, user1 := 1, user2 := 2 }]
    messages := [] }

/-- Two registered users, no chats yet. -/
def exDBnochat : DB :=
  { users := [1, 2], chats := [], messages := [] }

/-- A `chat_message` frame carrying a file named `resume` (no extension). -/
def exFileFrameNoExt : ChatFrame :=
  { content := "", messageType := "file", filePathField := none
    fileData := some (some { size := 5, validImage := false, q85size := 5, q70size := 5 })
    fileName := some "resume" }

/-- A `chat_message` frame with text content `hi`. -/
def exTextFrame : ChatFrame :=
  { content := "hi", messageType := "text", filePathField := none
    fileData := none, fileName := none }

/-- A staged 100-byte pdf document. -/
def exFS6 : FS :=
  [("messages/a.pdf", { size := 100, validImage := false, q85size := 0, q70size := 0 })]

/-- A staged 3 MiB heic photo whose re-encodings are 2.5 MiB at quality 85 and
about 2.2 MiB at quality 70 — both above the 2 MiB soft threshold. -/
def exFS7 : FS :=
  [("messages/photo.heic",
    { size := 3145728, validImage := true, q85size := 2621440, q70size := 2306867 })]

/-! ## Shared lemmas -/

theorem fsGet_fsWrite_self (fs : FS) (p : String) (f : StoredFile) :
    fsGet (fsWrite fs p f) p = some f := by
  unfold fsGet fsWrite
  induction fs with
  | nil => simp
  | cons e rest ih =>
    rw [List.filter_cons]
    by_cases he : e.1 = p
    · have hb : (e.1 != p) = false := by simp [he]
      rw [hb]
      simp only [Bool.false_eq_true, if_false]
      exact ih
    · have hb : (e.1 != p) = true := by simp [he]
      rw [hb]
      simp only [if_true]
      rw [List.cons_append, List.find?_cons]
      have hb2 : (e.1 == p) = false := by simp [he]
      rw [hb2]
      exact ih

theorem fsGet_fsRemove_ne (fs : FS) (p q : String) (h : p ≠ q) :
    fsGet (fsRemove fs q) p = fsGet fs p := by
  unfold fsGet fsRemove
  induction fs with
  | nil => simp
  | cons e rest ih =>
    rw [List.filter_cons]
    by_cases he : e.1 = q
    · have hb : (e.1 != q) = false := by simp [he]
      rw [hb]
      have hb2 : (e.1 == p) = false := beq_eq_false_iff_ne.mpr (by rw [he]; exact Ne.symm h)
      simp only [Bool.false_eq_true, if_false, List.find?_cons, hb2]
      exact ih
    · have hb : (e.1 != q) = true := by simp [he]
      rw [hb]
      simp only [if_true, List.find?_cons]
      by_cases hep : e.1 = p
      · have hb2 : (e.1 == p) = true := by simp [hep]
        rw [hb2]
      · have hb2 : (e.1 == p) = false := by simp [hep]
        rw [hb2]
        exact ih

theorem find?_append_of_none {α : Type} (p : α → Bool) (l1 l2 : List α)
    (h : l1.find? p = none) : (l1 ++ l2).find? p = l2.find? p := by
  induction l1 with
  | nil => simp
  | cons a rest ih =>
    rw [List.find?_cons] at h
    by_cases ha : p a
    · simp [ha] at h
    · rw [List.cons_append, List.find?_cons]
      simp only [ha]
      exact ih (by simpa [ha] using h)

theorem mark_preserves_other (db : DB) (mid uid now : Nat) (m : Msg)
    (hm : m ∈ (mark_message_as_read db mid uid now).1.messages) (hne : m.id ≠ mid) :
    m ∈ db.messages := by
  unfold mark_message_as_read at hm
  split at hm
  · exact hm
  · split at hm
    · exact hm
    · split at hm
      · exact hm
      · split at hm
        · simp only at hm
          rcases List.mem_map.mp hm with ⟨x, hx, hfx⟩
          by_cases hid : (x.id == mid) = true
          · exfalso
            apply hne
            rw [← hfx, if_pos hid]
            simpa using hid
          · rw [if_neg hid] at hfx
            exact hfx ▸ hx
        · exact hm

/-! ## Claim C2 — read-marking at JOINED entry -/

/-- C2 counterexample: user 2's connection reaches JOINED on chat 7 where three
messages from user 1 have `read_by` null, yet `connect` returns the database
unchanged — all three are still unread afterwards, so no batched read-marking
update happens at JOINED entry. -/
theorem c2_join_does_not_mark_read :
    (ChatConsumer_connect exDB 7 (some 2)).outcome = ConnectOutcome.joined ∧
    (ChatConsumer_connect exDB 7 (some 2)).db = exDB ∧
    countUnreadNotBy (ChatConsumer_connect exDB 7 (some 2)).db.messages 2 = 3 := by
  decide

/-- C2 amended: when a participant's connection reaches JOINED, the handler
registers with the chat group, accepts, sends the history to this connection
only and a connection-confirmed event — and performs no write at all: the
message store is returned unchanged, so no unread message is marked read at
JOINED entry. -/
theorem c2_join_effects_no_read_marking (db : DB) (cid uid : Nat) (chat : ChatRow)
    (hc : getChat db cid = some chat) (hp : chat.user1 = uid ∨ chat.user2 = uid) :
    ChatConsumer_connect db cid (some uid) =
      { outcome := ConnectOutcome.joined
        effs := [Eff.groupAdd (chatGroupName cid), Eff.accept] ++
                send_chat_history db cid uid ++
                [Eff.sendSelf (OutMsg.connectionEstablished cid)]
        db := db } := by
  have hnp : ¬ (chat.user1 ≠ uid ∧ chat.user2 ≠ uid) := by
    rcases hp with h | h
    · exact fun hcon => hcon.1 h
    · exact fun hcon => hcon.2 h
  unfold ChatConsumer_connect
  simp only [hc]
  rw [if_neg hnp]

/-- Witness for the C2 amended theorem at a concrete join. -/
theorem c2_join_effects_no_read_marking_witness :
    ChatConsumer_connect exDB 7 (some 2) =
      { outcome := ConnectOutcome.joined
        effs := [Eff.groupAdd (chatGroupName 7), Eff.accept] ++
                send_chat_history exDB 7 2 ++
                [Eff.sendSelf (OutMsg.connectionEstablished 7)]
        db := exDB } :=
  c2_join_effects_no_read_marking exDB 7 2 { id := 7, user1 := 1, user2 := 2 } rfl
    (Or.inr rfl)

/-! ## Claim C9 — unrecognized frame types -/

/-- C9 counterexample: a frame with valid encoding and unknown type
`presence` is not silently ignored — the handler sends an `error` event
(`Invalid message type`) back to the sender. -/
theorem c9_unknown_type_sends_error :
    receive exDB [] 7 1
        { ftype := "presence", chat := exTextFrame, isTyping := false, messageId := none }
        "ts" 1 =
      (exDB, [], [Eff.sendSelf (OutMsg.errorMsg "Invalid message type")]) := by
  decide

/-- C9 amended: for every frame whose declared type is none of `chat_message`,
`typing`, `read_receipt`, the handler replies to the sender only with an
`error` event (`Invalid message type`); nothing is broadcast, no state
changes, and the session continues (no close effect). -/
theorem c9_unknown_type_error_event (db : DB) (fs : FS) (cid uid : Nat) (frame : InFrame)
    (ts : String) (now : Nat) (h1 : frame.ftype ≠ "chat_message")
    (h2 : frame.ftype ≠ "typing") (h3 : frame.ftype ≠ "read_receipt") :
    receive db fs cid uid frame ts now =
      (db, fs, [Eff.sendSelf (OutMsg.errorMsg "Invalid message type")]) := by
  unfold receive
  rw [if_neg h1, if_neg h2, if_neg h3]

/-- Witness for the C9 amended theorem at a concrete unknown frame type. -/
theorem c9_unknown_type_error_event_witness :
    receive exDB [] 7 1
        { ftype := "ping", chat := exTextFrame, isTyping := false, messageId := none }
        "ts" 1 =
      (exDB, [], [Eff.sendSelf (OutMsg.errorMsg "Invalid message type")]) :=
  c9_unknown_type_error_event exDB [] 7 1
    { ftype := "ping", chat := exTextFrame, isTyping := false, messageId := none }
    "ts" 1 (by decide) (by decide) (by decide)

/-! ## Claim C10 — teardown after every termination path -/

/-- C10: evaluation at the failing input.  After a rejected (anonymous)
handshake on the notification stream, `UserChatsConsumer.connect` never
assigned `self.user_group_name`, so the unconditional attribute access in
`disconnect` raises instead of discarding group membership.  By contrast a
successful notification handshake and the chat consumer (whose group name is
assigned before any rejection) always tear down cleanly. -/
theorem c10_disconnect_after_rejected_handshake_raises :
    UserChatsConsumer_disconnect (UserChatsConsumer_connect none).1 =
      Except.error "AttributeError: user_group_name" ∧
    UserChatsConsumer_disconnect (UserChatsConsumer_connect (some 5)).1 =
      Except.ok [Eff.groupDiscard (userGroupName 5)] ∧
    ChatConsumer_disconnect 7 = Except.ok [Eff.groupDiscard (chatGroupName 7)] :=
  ⟨rfl, rfl, rfl⟩

/-! ## Claim C4 — read_receipt frames -/

/-- C4 counterexample: chat 7 has three unread messages from user 1; user 2
sends a `read_receipt` frame naming message 10.  Only that one message is
marked — two qualifying messages remain unread — so the handler does not
batch-update all unread messages of the chat. -/
theorem c4_read_receipt_not_batched :
    countUnreadNotBy (handle_read_receipt exDB 7 2 (some 10) 99).1.messages 2 = 2 ∧
    (handle_read_receipt exDB 7 2 (some 10) 99).2 =
      [Eff.groupSend (chatGroupName 7) (GroupEvent.readReceipt 10 2)] := by
  decide

/-- C4 amended: a `read_receipt` frame carries a single `message_id`.  When it
is present (and nonzero), only that message can change — every message with a
different id is returned untouched — and a `read_receipt` event naming the
reader and that message id is broadcast to the chat topic (whether or not the
mark succeeded).  When `message_id` is absent, nothing happens and nothing is
broadcast. -/
theorem c4_read_receipt_single_message (db : DB) (cid uid mid now : Nat) (hmid : mid ≠ 0) :
    (handle_read_receipt db cid uid (some mid) now).2 =
      [Eff.groupSend (chatGroupName cid) (GroupEvent.readReceipt mid uid)] ∧
    (∀ m ∈ (handle_read_receipt db cid uid (some mid) now).1.messages,
        m.id ≠ mid → m ∈ db.messages) ∧
    handle_read_receipt db cid uid none now = (db, []) := by
  refine ⟨?_, ?_, rfl⟩
  · unfold handle_read_receipt
    simp only [if_pos hmid]
  · intro m hm hne
    apply mark_preserves_other db mid uid now m ?_ hne
    unfold handle_read_receipt at hm
    simp only [if_pos hmid] at hm
    exact hm

/-- Witness for the C4 amended theorem at a concrete frame. -/
theorem c4_read_receipt_single_message_witness :
    (handle_read_receipt exDB 7 2 (some 10) 99).2 =
      [Eff.groupSend (chatGroupName 7) (GroupEvent.readReceipt 10 2)] ∧
    (∀ m ∈ (handle_read_receipt exDB 7 2 (some 10) 99).1.messages,
        m.id ≠ 10 → m ∈ exDB.messages) ∧
    handle_read_receipt exDB 7 2 none 99 = (exDB, []) :=
  c4_read_receipt_single_message exDB 7 2 10 99 (by decide)

/-! ## Claim C5 — text message fan-out -/

/-- C5 counterexample: user 1 sends a text `chat_message` with content `hi` on
chat 7.  The broadcast reaches the group, but user 1's own connection delivers
nothing: `ChatConsumer.chat_message` filters out events whose sender id equals
the connection's user id, so the sender does not receive the event the claim
says it receives. -/
theorem c5_sender_not_echoed :
    deliverAll 1 (handle_chat_message exDB [] 7 1 exTextFrame "ts" 5).2.2 = [] := by
  decide

/-- C5 amended: when participant A sends a text `chat_message` with content
`hi`, exactly one `chat_message` event with content `hi`, sender id A and
`read_by` null is broadcast to the chat topic; a joined connection of any
other user B forwards it to its socket, while A's own connection forwards
nothing (the group handler excludes the sender). -/
theorem c5_text_broadcast_excludes_sender (db : DB) (fs : FS) (cid A B now : Nat)
    (chat : ChatRow) (ts : String) (hc : getChat db cid = some chat)
    (hp : chat.user1 = A ∨ chat.user2 = A) (hAB : A ≠ B) :
    ∃ md : MessageData,
      (handle_chat_message db fs cid A exTextFrame ts now).2.2 =
        [Eff.groupSend (chatGroupName cid) (GroupEvent.chatMessage md)] ∧
      md.content = "hi" ∧ md.senderId = A ∧ md.readBy = none ∧
      deliverGroupEvent B (GroupEvent.chatMessage md) = some (OutMsg.chatMessage md) ∧
      deliverGroupEvent A (GroupEvent.chatMessage md) = none := by
  have hnp : ¬ (chat.user1 ≠ A ∧ chat.user2 ≠ A) := by
    rcases hp with h | h
    · exact fun hcon => hcon.1 h
    · exact fun hcon => hcon.2 h
  refine ⟨format_message_data A
      { id := nextMessageId db, chatId := cid, senderId := A, content := "hi"
        messageType := "text", filePath := none, readBy := none, readAt := none
        celeryTaskId := none, createdAt := now }, ?_, rfl, rfl, rfl, ?_, ?_⟩
  · unfold handle_chat_message exTextFrame handle_chat_message_rest save_message
    simp only [hc]
    rw [if_neg hnp]
    simp
  · simp [deliverGroupEvent, chat_message_deliver, format_message_data, hAB]
  · simp [deliverGroupEvent, chat_message_deliver, format_message_data]

/-- Witness for the C5 amended theorem at a concrete send. -/
theorem c5_text_broadcast_excludes_sender_witness :
    ∃ md : MessageData,
      (handle_chat_message exDB [] 7 1 exTextFrame "ts" 5).2.2 =
        [Eff.groupSend (chatGroupName 7) (GroupEvent.chatMessage md)] ∧
      md.content = "hi" ∧ md.senderId = 1 ∧ md.readBy = none ∧
      deliverGroupEvent 2 (GroupEvent.chatMessage md) = some (OutMsg.chatMessage md) ∧
      deliverGroupEvent 1 (GroupEvent.chatMessage md) = none :=
  c5_text_broadcast_excludes_sender exDB [] 7 1 2 5 { id := 7, user1 := 1, user2 := 2 }
    "ts" rfl (Or.inl rfl) (by decide)

/-! ## Claim C1 — file-carrying chat_message frames -/

/-- C1 counterexample: user 1 sends a `chat_message` frame carrying a file
named `resume` (no extension) on chat 7.  The handler does not reject it —
no `upload_failed` event of any reason is produced — no pipeline job is
enqueued, and a durable `Message` row (message_type `file`) is created
immediately, contradicting the claimed reject/stage/enqueue/acknowledge
behavior. -/
theorem c1_no_extension_check_no_pipeline :
    countUploadFailed (handle_chat_message exDB [] 7 1 exFileFrameNoExt "ts" 10).2.2 = 0 ∧
    countEnqueue (handle_chat_message exDB [] 7 1 exFileFrameNoExt "ts" 10).2.2 = 0 ∧
    (handle_chat_message exDB [] 7 1 exFileFrameNoExt "ts" 10).1.messages.length =
      exDB.messages.length + 1 ∧
    msgTypeOfLast (handle_chat_message exDB [] 7 1 exFileFrameNoExt "ts" 10).1.messages =
      some "file" := by
  decide

/-- C1 amended: for any file name (extension or not), a `chat_message` frame
whose file payload decodes is handled synchronously: the payload is written to
the timestamp-suffixed staging name, a durable `Message` row referencing that
staged file is created immediately, and a single `chat_message` event is
broadcast to the topic.  No extension check, no pipeline job, and no
sender-only acknowledgment happen. -/
theorem c1_file_frame_immediate_persist (db : DB) (fs : FS) (cid uid now : Nat)
    (chat : ChatRow) (f : StoredFile) (fn mt ts : String)
    (hc : getChat db cid = some chat) (hp : chat.user1 = uid ∨ chat.user2 = uid)
    (hfn : fn ≠ "") :
    handle_chat_message db fs cid uid
        { content := "", messageType := mt, filePathField := none
          fileData := some (some f), fileName := some fn } ts now =
      ({ db with messages := db.messages ++
          [{ id := nextMessageId db, chatId := cid, senderId := uid, content := ""
             messageType := mt, filePath := some (stagedName fn ts), readBy := none
             readAt := none, celeryTaskId := none, createdAt := now }] },
       fsWrite fs (stagedName fn ts) f,
       [Eff.groupSend (chatGroupName cid)
          (GroupEvent.chatMessage (format_message_data uid
            { id := nextMessageId db, chatId := cid, senderId := uid, content := ""
              messageType := mt, filePath := some (stagedName fn ts), readBy := none
              readAt := none, celeryTaskId := none, createdAt := now }))]) := by
  have hnp : ¬ (chat.user1 ≠ uid ∧ chat.user2 ≠ uid) := by
    rcases hp with h | h
    · exact fun hcon => hcon.1 h
    · exact fun hcon => hcon.2 h
  have hne : stagedName fn ts ≠ "" := by
    unfold stagedName
    intro h
    have hlen := congrArg String.length h
    rw [String.length_append] at hlen
    simp at hlen
    exact absurd hlen.1 (by decide)
  have hex : fsExists (fsWrite fs (stagedName fn ts) f) (stagedName fn ts) = true := by
    unfold fsExists
    rw [fsGet_fsWrite_self]
    rfl
  unfold handle_chat_message
  simp only
  rw [if_pos (⟨rfl, hfn⟩ : (some (some f) : Option (Option StoredFile)).isSome = true ∧
      (some fn).getD "" ≠ "")]
  unfold save_base64_file
  simp only [Option.getD_some]
  unfold handle_chat_message_rest
  rw [if_neg (fun hcon => hne hcon.2)]
  simp only [hex, if_true]
  unfold save_message
  simp only [hc]
  rw [if_neg hnp]

/-- Witness for the C1 amended theorem at a concrete extensionless upload. -/
theorem c1_file_frame_immediate_persist_witness :
    handle_chat_message exDB [] 7 1
        { content := "", messageType := "file", filePathField := none
          fileData := some (some { size := 5, validImage := false, q85size := 5, q70size := 5 })
          fileName := some "resume" } "ts" 10 =
      ({ exDB with messages := exDB.messages ++
          [{ id := nextMessageId exDB, chatId := 7, senderId := 1, content := ""
             messageType := "file", filePath := some (stagedName "resume" "ts"), readBy := none
             readAt := none, celeryTaskId := none, createdAt := 10 }] },
       fsWrite [] (stagedName "resume" "ts")
         { size := 5, validImage := false, q85size := 5, q70size := 5 },
       [Eff.groupSend (chatGroupName 7)
          (GroupEvent.chatMessage (format_message_data 1
            { id := nextMessageId exDB, chatId := 7, senderId := 1, content := ""
              messageType := "file", filePath := some (stagedName "resume" "ts"), readBy := none
              readAt := none, celeryTaskId := none, createdAt := 10 }))]) :=
  c1_file_frame_immediate_persist exDB [] 7 1 10 { id := 7, user1 := 1, user2 := 2 }
    { size := 5, validImage := false, q85size := 5, q70size := 5 } "resume" "file" "ts"
    rfl (Or.inl rfl) (by decide)

/-! ## Claim C3 — bounded history on join -/

/-- C3 counterexample: chat 7 holds three messages; with limit 2 the code's
history is not the most-recent-2 sequence the claim describes (it is the
oldest two instead). -/
theorem c3_history_not_most_recent :
    get_chat_history exDB 7 2 ≠ history_most_recent exDB 7 2 := by
  decide

/-- C3 amended: the bounded history delivered on join is the OLDEST `limit`
messages of the chat (`order_by('created_at')[:limit]` takes the first
`limit` of the ascending order): it is sorted chronologically ascending, has
`min limit count` entries, and every chat message left out is at least as
recent as every message included. -/
theorem c3_history_oldest (db : DB) (cid limit : Nat) :
    (get_chat_history db cid limit).Sorted createdLe ∧
    (get_chat_history db cid limit).length =
      min limit (db.messages.filter (fun m => m.chatId == cid)).length ∧
    ∀ m ∈ get_chat_history db cid limit,
      ∀ mx ∈ db.messages.filter (fun x => x.chatId == cid),
        mx ∉ get_chat_history db cid limit → m.createdAt ≤ mx.createdAt := by
  unfold get_chat_history
  refine ⟨?_, ?_, ?_⟩
  · exact List.Pairwise.sublist (List.take_sublist _ _)
      (List.sorted_insertionSort createdLe _)
  · rw [List.length_take, List.length_insertionSort]
  · intro m hm mx hmx hnot
    have hS : mx ∈ (db.messages.filter (fun x => x.chatId == cid)).insertionSort createdLe :=
      (List.mem_insertionSort _).mpr hmx
    have hsplit :
        ((db.messages.filter (fun x => x.chatId == cid)).insertionSort createdLe).take limit ++
          ((db.messages.filter (fun x => x.chatId == cid)).insertionSort createdLe).drop
            limit =
        (db.messages.filter (fun x => x.chatId == cid)).insertionSort createdLe :=
      List.take_append_drop _ _
    have hdrop : mx ∈
        ((db.messages.filter (fun x => x.chatId == cid)).insertionSort createdLe).drop
          limit := by
      rw [← hsplit] at hS
      rcases List.mem_append.mp hS with h | h
      · exact absurd h hnot
      · exact h
    have hpw :
        (((db.messages.filter (fun x => x.chatId == cid)).insertionSort createdLe).take
            limit ++
          ((db.messages.filter (fun x => x.chatId == cid)).insertionSort createdLe).drop
            limit).Pairwise createdLe := by
      rw [hsplit]
      exact List.sorted_insertionSort createdLe _
    exact (List.pairwise_append.mp hpw).2.2 m hm mx hdrop

/-- Witness for the C3 amended theorem: in chat 7 with limit 2, the oldest
message (id 10) is in the history and is no newer than the excluded newest
message (id 12). -/
theorem c3_history_oldest_witness :
    mkMsg 10 7 1 "m1" 1 ∈ get_chat_history exDB 7 2 ∧
    (mkMsg 10 7 1 "m1" 1).createdAt ≤ (mkMsg 12 7 1 "m3" 3).createdAt :=
  ⟨by decide,
   (c3_history_oldest exDB 7 2).2.2 (mkMsg 10 7 1 "m1" 1) (by decide)
     (mkMsg 12 7 1 "m3" 3) (by decide) (by decide)⟩

/-! ## Pipeline commit lemmas (shared) -/

theorem pipeline_commit_success_eq (db : DB) (fs : FS) (cid sid : Nat)
    (pp content tid : String) (now : Nat) (chat : ChatRow)
    (hc : getChat db cid = some chat) (hu : userExists db sid = true) :
    pipeline_commit db fs cid sid pp content tid now =
      ({ db with messages := db.messages ++ [pipelineMsg db cid sid pp content tid now] },
       fs,
       [Eff.groupSend (chatGroupName cid)
          (GroupEvent.chatMessage (pipeline_format_message_data
            (pipelineMsg db cid sid pp content tid now)))],
       { success := true, reason := none
         messageId := some (pipelineMsg db cid sid pp content tid now).id }) := by
  unfold pipeline_commit
  simp only [hc]
  rw [if_neg (not_not_intro hu)]

theorem pipeline_commit_success_inserts (db : DB) (fs : FS) (cid sid : Nat)
    (pp content tid : String) (now : Nat) :
    (pipeline_commit db fs cid sid pp content tid now).2.2.2.success = true →
    (pipeline_commit db fs cid sid pp content tid now).1.messages =
      db.messages ++ [pipelineMsg db cid sid pp content tid now] := by
  unfold pipeline_commit
  cases hchat : getChat db cid with
  | none =>
    intro hs
    exact absurd hs (by simp [pipelineFail])
  | some c =>
    by_cases hu : userExists db sid = true
    · rw [if_neg (not_not_intro hu)]
      intro _
      rfl
    · rw [if_pos hu]
      intro hs
      exact absurd hs (by simp [pipelineFail])

theorem vpf_success_inserts (db : DB) (fs : FS) (cid sid : Nat)
    (fp content tid : String) (now : Nat) :
    (validate_and_process_file db fs cid sid fp content tid now).2.2.2.success = true →
    ∃ pp, (validate_and_process_file db fs cid sid fp content tid now).1.messages =
      db.messages ++ [pipelineMsg db cid sid pp content tid now] := by
  unfold validate_and_process_file
  split
  · intro hs
    exact absurd hs (by simp [pipelineFail])
  · split
    · intro hs
      exact absurd hs (by simp [pipelineFail])
    · split
      · intro hs
        exact absurd hs (by simp [pipelineFail])
      · split
        · split
          · intro hs
            exact absurd hs (by simp [pipelineFail])
          · intro hs
            exact ⟨_, pipeline_commit_success_inserts db _ cid sid _ content tid now hs⟩
        · intro hs
          exact ⟨_, pipeline_commit_success_inserts db fs cid sid fp content tid now hs⟩

/-! ## Claim C6 — pipeline job idempotence -/

/-- C6 counterexample: running the pipeline job body twice for the same staged
document and the same job id `T` leaves two `Message` rows whose
`celery_task_id` is `T` — the commit step does not deduplicate on the job
id. -/
theorem c6_rerun_creates_two_rows :
    countTaskMessages
      (validate_and_process_file
        (validate_and_process_file exDB exFS6 7 1 "messages/a.pdf" "" "T" 1).1
        (validate_and_process_file exDB exFS6 7 1 "messages/a.pdf" "" "T" 1).2.1
        7 1 "messages/a.pdf" "" "T" 2).1.messages "T" = 2 := by
  decide

/-- C6 amended: the commit step performs no job-id deduplication.  Every
successful pipeline run appends exactly one new `Message` row carrying the
job id — in particular the count of rows referencing that job id grows by one
per successful run, whatever rows already exist. -/
theorem c6_success_always_inserts (db : DB) (fs : FS) (cid sid : Nat)
    (fp content tid : String) (now : Nat)
    (hs : (validate_and_process_file db fs cid sid fp content tid now).2.2.2.success = true) :
    (validate_and_process_file db fs cid sid fp content tid now).1.messages.length =
      db.messages.length + 1 ∧
    countTaskMessages
        (validate_and_process_file db fs cid sid fp content tid now).1.messages tid =
      countTaskMessages db.messages tid + 1 := by
  rcases vpf_success_inserts db fs cid sid fp content tid now hs with ⟨pp, hmsgs⟩
  constructor
  · rw [hmsgs, List.length_append]
    rfl
  · rw [hmsgs]
    unfold countTaskMessages
    rw [List.filter_append, List.length_append]
    simp [pipelineMsg]

/-- Witness for the C6 amended theorem: the first successful run on the staged
pdf adds one row with task id `T`. -/
theorem c6_success_always_inserts_witness :
    (validate_and_process_file exDB exFS6 7 1 "messages/a.pdf" "" "T" 1).1.messages.length =
      exDB.messages.length + 1 ∧
    countTaskMessages
        (validate_and_process_file exDB exFS6 7 1 "messages/a.pdf" "" "T" 1).1.messages "T" =
      countTaskMessages exDB.messages "T" + 1 :=
  c6_success_always_inserts exDB exFS6 7 1 "messages/a.pdf" "" "T" 1 (by decide)

/-! ## Image-branch lemma (shared) -/

theorem vpf_image_branch (db : DB) (fs : FS) (cid sid : Nat) (fp content tid : String)
    (now : Nat) (f : StoredFile)
    (hf : fsGet fs fp = some f)
    (hext : ALLOWED_IMAGE_EXTS.contains (lowerStr (splitext fp).2) = true)
    (himg : f.validImage = true)
    (hneed : f.size > MAX_IMAGE_SIZE ∨ lowerStr (splitext fp).2 ≠ ".webp") :
    validate_and_process_file db fs cid sid fp content tid now =
      match compress_image f MAX_IMAGE_SIZE with
      | none =>
        (db, cleanup fs fp, [uploadFailedEff cid "file_too_large"],
         pipelineFail "file_too_large")
      | some csize =>
        pipeline_commit db
          (if fp ≠ webp_target_path fp then
            cleanup
              (fsWrite fs (webp_target_path fp)
                { size := csize, validImage := true, q85size := csize, q70size := csize })
              fp
          else
            fsWrite fs (webp_target_path fp)
              { size := csize, validImage := true, q85size := csize, q70size := csize })
          cid sid (webp_target_path fp) content tid now := by
  have hvt : validate_file_type fs fp = (some "image", lowerStr (splitext fp).2) := by
    unfold validate_file_type
    rw [if_pos hext, hf]
    dsimp only
    rw [if_pos himg]
  have hfsx : fsExists fs fp = true := by
    unfold fsExists
    rw [hf]
    rfl
  have hsize : getsize fs fp = f.size := by
    unfold getsize
    rw [hf]
  unfold validate_and_process_file
  rw [if_neg (not_not_intro hfsx), hvt]
  dsimp only
  rw [if_neg (fun hcon => by simp at hcon)]
  rw [if_neg (fun hcon => by simp at hcon)]
  rw [if_pos ⟨rfl, by rw [hsize]; exact hneed⟩]
  rw [hf, Option.getD_some]

/-! ## Claim C7 — image normalization bounds and committed type -/

/-- C7 counterexample: a staged 3 MiB `photo.heic` whose quality-85 re-encode
is 2.5 MiB and whose quality-70 re-encode is about 2.2 MiB.  Both exceed the
2 MiB soft threshold, yet the pipeline succeeds (the second pass is only
checked against the 10 MiB hard cap), the committed `.webp` is larger than
2 MiB, and the committed message has `message_type` `file`, not `image`. -/
theorem c7_oversize_webp_committed_as_file :
    (validate_and_process_file exDB exFS7 7 1 "messages/photo.heic" "" "T7" 3).2.2.2.success =
      true ∧
    msgTypeOfLast
        (validate_and_process_file exDB exFS7 7 1 "messages/photo.heic" "" "T7" 3).1.messages =
      some "file" ∧
    getsize (validate_and_process_file exDB exFS7 7 1 "messages/photo.heic" "" "T7" 3).2.1
        "messages/photo.webp" = 2306867 ∧
    2097152 <
      getsize (validate_and_process_file exDB exFS7 7 1 "messages/photo.heic" "" "T7" 3).2.1
        "messages/photo.webp" := by
  decide

/-- C7 amended: for a staged valid image needing normalization, the pipeline
re-encodes at quality 85; if that result exceeds the 2 MiB soft threshold it
re-encodes at quality 70 and fails with `file_too_large` only when that
second result exceeds the 10 MiB hard maximum.  On success it commits and
broadcasts a `chat_message` whose `message_type` is `file` (never `image`)
with a `.webp` file reference whose size is the chosen encoding, bounded by
10 MiB (not 2 MiB). -/
theorem c7_image_normalization (db : DB) (fs : FS) (cid sid : Nat)
    (fp content tid : String) (now : Nat) (f : StoredFile) (chat : ChatRow)
    (hf : fsGet fs fp = some f)
    (hext : ALLOWED_IMAGE_EXTS.contains (lowerStr (splitext fp).2) = true)
    (himg : f.validImage = true)
    (hneed : f.size > MAX_IMAGE_SIZE ∨ lowerStr (splitext fp).2 ≠ ".webp")
    (hc : getChat db cid = some chat) (hu : userExists db sid = true) :
    (f.q85size > MAX_IMAGE_SIZE → f.q70size > MAX_FILE_SIZE →
      validate_and_process_file db fs cid sid fp content tid now =
        (db, cleanup fs fp, [uploadFailedEff cid "file_too_large"],
         pipelineFail "file_too_large")) ∧
    (∀ csize, compress_image f MAX_IMAGE_SIZE = some csize →
      csize ≤ MAX_FILE_SIZE ∧
      (validate_and_process_file db fs cid sid fp content tid now).2.2.2.success = true ∧
      msgTypeOfLast
          (validate_and_process_file db fs cid sid fp content tid now).1.messages =
        some "file" ∧
      msgFileOfLast
          (validate_and_process_file db fs cid sid fp content tid now).1.messages =
        some (some (webp_target_path fp)) ∧
      getsize (validate_and_process_file db fs cid sid fp content tid now).2.1
          (webp_target_path fp) = csize) := by
  have hbr := vpf_image_branch db fs cid sid fp content tid now f hf hext himg hneed
  constructor
  · intro h85 h70
    have hcomp : compress_image f MAX_IMAGE_SIZE = none := by
      unfold compress_image
      rw [if_neg (by omega), if_neg (by omega)]
    rw [hbr, hcomp]
  · intro csize hcs
    have hle : csize ≤ MAX_FILE_SIZE := by
      unfold compress_image at hcs
      by_cases h1 : f.q85size ≤ MAX_IMAGE_SIZE
      · rw [if_pos h1] at hcs
        injection hcs with h
        subst h
        exact le_trans h1 (by decide)
      · rw [if_neg h1] at hcs
        by_cases h2 : f.q70size ≤ MAX_FILE_SIZE
        · rw [if_pos h2] at hcs
          injection hcs with h
          subst h
          exact h2
        · rw [if_neg h2] at hcs
          exact absurd hcs (by simp)
    rw [hbr, hcs]
    dsimp only
    rw [pipeline_commit_success_eq db _ cid sid (webp_target_path fp) content tid now chat
      hc hu]
    refine ⟨hle, rfl, ?_, ?_, ?_⟩
    · unfold msgTypeOfLast
      rw [List.getLast?_concat]
      rfl
    · unfold msgFileOfLast
      rw [List.getLast?_concat]
      rfl
    · by_cases hpp : fp ≠ webp_target_path fp
      · rw [if_pos hpp]
        unfold getsize cleanup
        rw [fsGet_fsRemove_ne _ _ _ (Ne.symm hpp), fsGet_fsWrite_self]
      · rw [if_neg hpp]
        unfold getsize
        rw [fsGet_fsWrite_self]

/-- Witness for the C7 amended theorem at the 3 MiB heic upload: the chosen
quality-70 encoding (about 2.2 MiB) is accepted and committed as a `.webp`
`file` message. -/
theorem c7_image_normalization_witness :
    2306867 ≤ MAX_FILE_SIZE ∧
    (validate_and_process_file exDB exFS7 7 1 "messages/photo.heic" "" "T7" 3).2.2.2.success =
      true ∧
    msgTypeOfLast
        (validate_and_process_file exDB exFS7 7 1 "messages/photo.heic" "" "T7" 3).1.messages =
      some "file" ∧
    msgFileOfLast
        (validate_and_process_file exDB exFS7 7 1 "messages/photo.heic" "" "T7" 3).1.messages =
      some (some (webp_target_path "messages/photo.heic")) ∧
    getsize (validate_and_process_file exDB exFS7 7 1 "messages/photo.heic" "" "T7" 3).2.1
        (webp_target_path "messages/photo.heic") = 2306867 :=
  (c7_image_normalization exDB exFS7 7 1 "messages/photo.heic" "" "T7" 3
      { size := 3145728, validImage := true, q85size := 2621440, q70size := 2306867 }
      { id := 7, user1 := 1, user2 := 2 }
      (by decide) (by decide) rfl (Or.inl (by decide)) (by decide) rfl).2
    2306867 (by decide)

/-! ## Chat-pair lemmas (shared) -/

theorem chats_pair_unique {l : List ChatRow}
    (h : l.Pairwise (fun c d => c.user1 ≠ d.user1 ∨ c.user2 ≠ d.user2))
    {c d : ChatRow} (hc : c ∈ l) (hd : d ∈ l)
    (h1 : c.user1 = d.user1) (h2 : c.user2 = d.user2) : c = d := by
  by_contra hne
  have hsym : Symmetric (fun c d : ChatRow => c.user1 ≠ d.user1 ∨ c.user2 ≠ d.user2) := by
    intro a b hab
    rcases hab with h' | h'
    · exact Or.inl (Ne.symm h')
    · exact Or.inr (Ne.symm h')
  rcases List.Pairwise.forall hsym h hc hd hne with h' | h'
  · exact h' h1
  · exact h' h2

theorem find?_chat_eq (l : List ChatRow) (a b : Nat) (c : ChatRow)
    (h : l.find? (fun x => x.user1 == a && x.user2 == b) = some c) :
    c ∈ l ∧ c.user1 = a ∧ c.user2 = b := by
  have hmem := List.mem_of_find?_eq_some h
  have hp := List.find?_some h
  simp at hp
  exact ⟨hmem, hp.1, hp.2⟩

theorem valid_unordered_unique (db : DB) (hv : ChatDBValid db) :
    ∀ x ∈ db.chats, ∀ y ∈ db.chats,
      ((x.user1 = y.user1 ∧ x.user2 = y.user2) ∨ (x.user1 = y.user2 ∧ x.user2 = y.user1)) →
      x = y := by
  intro x hx y hy hpair
  rcases hpair with ⟨h1, h2⟩ | ⟨h1, h2⟩
  · exact chats_pair_unique hv.2 hx hy h1 h2
  · exfalso
    have hxlt := hv.1 x hx
    have hylt := hv.1 y hy
    omega

/-! ## Claim C8 — chat canonicalization -/

/-- C8: from a valid chat table, creating a chat for the pair (A, B) and then
for (B, A) — in either request order since (A, B) here is arbitrary — yields
one single persisted row shared by both requests: the second request returns
the same database and the same row.  The row is canonical (`user1 < user2`,
hence the users differ), the table stays valid, and at most one row exists
per unordered pair. -/
theorem c8_chat_creation_canonical (db : DB) (A B : Nat) (hv : ChatDBValid db)
    (hA : userExists db A = true) (hB : userExists db B = true) (hAB : A ≠ B) :
    ∃ db1 c, ChatSerializer_create db A B = Except.ok (db1, c) ∧
      ChatSerializer_create db1 B A = Except.ok (db1, c) ∧
      c.user1 < c.user2 ∧
      ((c.user1 = A ∧ c.user2 = B) ∨ (c.user1 = B ∧ c.user2 = A)) ∧
      ChatDBValid db1 ∧
      (∀ x ∈ db1.chats, ∀ y ∈ db1.chats,
        ((x.user1 = y.user1 ∧ x.user2 = y.user2) ∨
          (x.user1 = y.user2 ∧ x.user2 = y.user1)) → x = y) := by
  cases hf1 : db.chats.find? (fun x => x.user1 == A && x.user2 == B) with
  | some c =>
    obtain ⟨hcmem, hc1, hc2⟩ := find?_chat_eq _ _ _ _ hf1
    have hclt : c.user1 < c.user2 := hv.1 c hcmem
    have hf2 : db.chats.find? (fun x => x.user1 == B && x.user2 == A) = none := by
      rw [List.find?_eq_none]
      intro x hx hpx
      simp at hpx
      have hxlt := hv.1 x hx
      rw [hc1, hc2] at hclt
      rw [hpx.1, hpx.2] at hxlt
      exact absurd hclt (Nat.lt_asymm hxlt)
    refine ⟨db, c, ?_, ?_, hclt, Or.inl ⟨hc1, hc2⟩, hv, valid_unordered_unique db hv⟩
    · unfold ChatSerializer_create
      rw [if_neg (not_not_intro hB), hf1]
    · unfold ChatSerializer_create
      rw [if_neg (not_not_intro hA), hf2]
      dsimp only
      rw [hf1]
  | none =>
    cases hf2 : db.chats.find? (fun x => x.user1 == B && x.user2 == A) with
    | some c =>
      obtain ⟨hcmem, hc1, hc2⟩ := find?_chat_eq _ _ _ _ hf2
      have hclt : c.user1 < c.user2 := hv.1 c hcmem
      refine ⟨db, c, ?_, ?_, hclt, Or.inr ⟨hc1, hc2⟩, hv, valid_unordered_unique db hv⟩
      · unfold ChatSerializer_create
        rw [if_neg (not_not_intro hB), hf1]
        dsimp only
        rw [hf2]
      · unfold ChatSerializer_create
        rw [if_neg (not_not_intro hA), hf2]
    | none =>
      have hins : ∀ a b : Nat, a < b →
          (∀ x ∈ db.chats, ¬ (x.user1 = a ∧ x.user2 = b)) →
          chat_insert db a b = Except.ok
            ({ db with chats := db.chats ++ [{ id := nextChatId db, user1 := a, user2 := b }] },
             { id := nextChatId db, user1 := a, user2 := b }) := by
        intro a b hab hnone
        unfold chat_insert
        rw [if_neg (not_not_intro hab)]
        rw [if_neg (fun hcon => by
          rcases List.any_eq_true.mp hcon with ⟨x, hx, hpx⟩
          simp at hpx
          exact hnone x hx hpx)]
      have hnf1 : ∀ x ∈ db.chats, ¬ (x.user1 = A ∧ x.user2 = B) := by
        intro x hx hpx
        exact List.find?_eq_none.mp hf1 x hx (by simp [hpx.1, hpx.2])
      have hnf2 : ∀ x ∈ db.chats, ¬ (x.user1 = B ∧ x.user2 = A) := by
        intro x hx hpx
        exact List.find?_eq_none.mp hf2 x hx (by simp [hpx.1, hpx.2])
      have hvalid1 : ∀ a b : Nat, a < b →
          (∀ x ∈ db.chats, ¬ (x.user1 = a ∧ x.user2 = b)) →
          ChatDBValid
            { db with
              chats := db.chats ++ [{ id := nextChatId db, user1 := a, user2 := b }] } := by
        intro a b hab hnone
        constructor
        · intro x hx
          rcases List.mem_append.mp hx with h | h
          · exact hv.1 x h
          · rw [List.mem_singleton] at h
            rw [h]
            exact hab
        · rw [List.pairwise_append]
          refine ⟨hv.2, by simp, ?_⟩
          intro x hx y hy
          rw [List.mem_singleton] at hy
          subst hy
          by_contra hcon
          push_neg at hcon
          exact hnone x hx ⟨hcon.1, hcon.2⟩
      rcases Nat.lt_or_gt_of_ne hAB with hlt | hgt
      · have hsave : Chat_save db A B = Except.ok
            ({ db with chats := db.chats ++ [{ id := nextChatId db, user1 := A, user2 := B }] },
             { id := nextChatId db, user1 := A, user2 := B }) := by
          unfold Chat_save
          rw [if_neg (Nat.lt_asymm hlt)]
          exact hins A B hlt hnf1
        have hgf1 :
            (db.chats ++ [({ id := nextChatId db, user1 := A, user2 := B } : ChatRow)]).find?
              (fun x => x.user1 == B && x.user2 == A) = none := by
          rw [find?_append_of_none _ _ _ hf2]
          have : (({ id := nextChatId db, user1 := A, user2 := B } : ChatRow).user1 == B &&
              ({ id := nextChatId db, user1 := A, user2 := B } : ChatRow).user2 == A) =
              false := by
            simp
            intro hAB2
            exact absurd hAB2 hAB
          simp [List.find?, this]
        have hgf2 :
            (db.chats ++ [({ id := nextChatId db, user1 := A, user2 := B } : ChatRow)]).find?
              (fun x => x.user1 == A && x.user2 == B) =
              some { id := nextChatId db, user1 := A, user2 := B } := by
          rw [find?_append_of_none _ _ _ hf1]
          simp [List.find?]
        refine ⟨{ db with
            chats := db.chats ++ [{ id := nextChatId db, user1 := A, user2 := B }] },
          { id := nextChatId db, user1 := A, user2 := B }, ?_, ?_, hlt,
          Or.inl ⟨rfl, rfl⟩, hvalid1 A B hlt hnf1,
          valid_unordered_unique _ (hvalid1 A B hlt hnf1)⟩
        · unfold ChatSerializer_create
          rw [if_neg (not_not_intro hB), hf1]
          dsimp only
          rw [hf2]
          dsimp only
          exact hsave
        · have hA1 : userExists
              { db with
                chats := db.chats ++ [{ id := nextChatId db, user1 := A, user2 := B }] } A =
              true := hA
          unfold ChatSerializer_create
          rw [if_neg (not_not_intro hA1), hgf1]
          dsimp only
          rw [hgf2]
      · have hsave : Chat_save db A B = Except.ok
            ({ db with chats := db.chats ++ [{ id := nextChatId db, user1 := B, user2 := A }] },
             { id := nextChatId db, user1 := B, user2 := A }) := by
          unfold Chat_save
          rw [if_pos hgt]
          exact hins B A hgt hnf2
        have hgf1 :
            (db.chats ++ [({ id := nextChatId db, user1 := B, user2 := A } : ChatRow)]).find?
              (fun x => x.user1 == B && x.user2 == A) =
              some { id := nextChatId db, user1 := B, user2 := A } := by
          rw [find?_append_of_none _ _ _ hf2]
          simp [List.find?]
        refine ⟨{ db with
            chats := db.chats ++ [{ id := nextChatId db, user1 := B, user2 := A }] },
          { id := nextChatId db, user1 := B, user2 := A }, ?_, ?_, hgt,
          Or.inr ⟨rfl, rfl⟩, hvalid1 B A hgt hnf2,
          valid_unordered_unique _ (hvalid1 B A hgt hnf2)⟩
        · unfold ChatSerializer_create
          rw [if_neg (not_not_intro hB), hf1]
          dsimp only
          rw [hf2]
          dsimp only
          exact hsave
        · have hA1 : userExists
              { db with
                chats := db.chats ++ [{ id := nextChatId db, user1 := B, user2 := A }] } A =
              true := hA
          unfold ChatSerializer_create
          rw [if_neg (not_not_intro hA1), hgf1]

/-- Witness for C8: creating (1, 2) then (2, 1) from two registered users and
an empty chat table yields one shared canonical row. -/
theorem c8_chat_creation_canonical_witness :
    ∃ db1 c, ChatSerializer_create exDBnochat 1 2 = Except.ok (db1, c) ∧
      ChatSerializer_create db1 2 1 = Except.ok (db1, c) ∧
      c.user1 < c.user2 ∧
      ((c.user1 = 1 ∧ c.user2 = 2) ∨ (c.user1 = 2 ∧ c.user2 = 1)) ∧
      ChatDBValid db1 ∧
      (∀ x ∈ db1.chats, ∀ y ∈ db1.chats,
        ((x.user1 = y.user1 ∧ x.user2 = y.user2) ∨
          (x.user1 = y.user2 ∧ x.user2 = y.user1)) → x = y) :=
  c8_chat_creation_canonical exDBnochat 1 2 (by decide) rfl rfl (by decide)
